import Mathlib

/-!
Verification of the `music-sync` orchestration script
(`src/music_sync/__main__.py`) against its natural-language specification.

The program is a sequential orchestrator around three external services:
a paginated playlist-listing provider, a media-fetch provider, and an
object-storage provider.  We embed the orchestration logic shallowly:

* external services are modelled as explicit environments (a list of
  provider pages, per-item fetch/upload outcomes, an elapsed upload time);
* the run is a pure function from that environment to a trace of
  observable events (objects created, warnings printed) plus an optional
  uncaught exception;
* Python library behaviour the script relies on is modelled explicitly
  where it is observable: `pageToken` falsiness (`None` and `""` both end
  the page loop), pydantic v1 field validation (a non-Optional `str`
  field rejects `None` with "none is not an allowed type"), and
  `time.sleep` raising `ValueError` on a negative argument.
-/

/-- A JSON value, used to model the serialized playlist snapshot at the
semantic level (pydantic's `Playlist.json()` output). -/
inductive Json where
  | null : Json
  | str : String → Json
  | arr : List Json → Json
  | obj : List (String × Json) → Json

/-- `class PlaylistItem(BaseModel): video: str; title: str`
(source lines 74-76). -/
structure PlaylistItem where
  video : String
  title : String
deriving DecidableEq, Repr

/-- `class Playlist(BaseModel): items: List[PlaylistItem] = []; name: Optional[str]`
(source lines 79-81).  In pydantic v1 an `Optional[str]` field without an
explicit default is not required and defaults to `None`, so `Playlist()`
constructs with `items = []`, `name = None`. -/
structure Playlist where
  items : List PlaylistItem
  name : Option String
deriving DecidableEq, Repr

/-- JSON serialization of one `PlaylistItem`, field order as declared:
`{"video": ..., "title": ...}`. -/
def playlistItemToJson (i : PlaylistItem) : Json :=
  Json.obj [("video", Json.str i.video), ("title", Json.str i.title)]

/-- JSON serialization of a `Playlist` as produced by `playlist.json()`
(source line 102): `{"items": [...], "name": null}` with fields in
declaration order. -/
def playlistToJson (p : Playlist) : Json :=
  Json.obj
    [("items", Json.arr (p.items.map playlistItemToJson)),
     ("name", match p.name with | none => Json.null | some s => Json.str s)]

/-- `PlaylistItem(video=video, title=title)` (source line 92), where
`video` and `title` come from `dict.get` and may be Python `None`.
Models pydantic v1 validation: a non-Optional `str` field rejects `None`
with a `ValidationError` ("none is not an allowed type"); any present
string is accepted verbatim. -/
def mkPlaylistItem (video title : Option String) : Except String PlaylistItem :=
  match video, title with
  | some v, some t => Except.ok { video := v, title := t }
  | none, _ => Except.error "validation error for PlaylistItem: video: none is not an allowed type"
  | some _, none => Except.error "validation error for PlaylistItem: title: none is not an allowed type"

/-- The snapshot-building loop (source lines 91-92): each yielded
`(video, title)` pair is wrapped into a `PlaylistItem` and appended, in
order.  A `ValidationError` raised for any pair propagates (the loop is
outside every `try` block). -/
def buildSnapshot : List (Option String × Option String) → Except String (List PlaylistItem)
  | [] => Except.ok []
  | (v, t) :: rest =>
    match mkPlaylistItem v t with
    | Except.error e => Except.error e
    | Except.ok item =>
      match buildSnapshot rest with
      | Except.error e => Except.error e
      | Except.ok items => Except.ok (item :: items)

/-- One response page of the playlist-listing provider: the page's items
(each a possibly-missing `videoId` and possibly-missing `title`, as
produced by `item.get("contentDetails", {}).get("videoId")` and
`item.get("snippet", {}).get("title")`, source lines 66-67) and the
optional `nextPageToken` (source line 69). -/
structure Page where
  items : List (Option String × Option String)
  nextPageToken : Option String
deriving DecidableEq, Repr

/-- One request issued by `youtube.playlistItems().list(...)`
(source lines 56-62): `part`, `maxResults`, `playlistId`, `pageToken`. -/
structure PageRequest where
  part : String
  maxResults : Nat
  playlistId : String
  pageToken : Option String
deriving DecidableEq, Repr

/-- Python truthiness of the page token in `if not page_token`
(source line 70): `None` and the empty string are both falsy and end the
page loop. -/
def tokenTruthy : Option String → Bool
  | none => false
  | some s => !s.isEmpty

/-- The page loop of `YoutubePlaylist` (source lines 48-71), run against
a provider that answers successive requests with the given pages in
order: request a page with the current token, yield all its items, then
continue with the page's `nextPageToken` when it is truthy and stop
otherwise.  Returns the requests issued and the items yielded. -/
def youtubePlaylistAux (playlistId : String) :
    Option String → List Page → List PageRequest × List (Option String × Option String)
  | _, [] => ([], [])
  | tok, page :: rest =>
    let req : PageRequest :=
      { part := "snippet,contentDetails", maxResults := 25
        playlistId := playlistId, pageToken := tok }
    if tokenTruthy page.nextPageToken then
      let next := youtubePlaylistAux playlistId page.nextPageToken rest
      (req :: next.1, page.items ++ next.2)
    else
      ([req], page.items)

/-- `YoutubePlaylist(youtube, playlist_id)`: the page loop started with
`page_token = None` (source line 53). -/
def youtubePlaylist (playlistId : String) (pages : List Page) :
    List PageRequest × List (Option String × Option String) :=
  youtubePlaylistAux playlistId none pages

/-- A well-formed provider page sequence: every page before the last
carries a truthy continuation token and the last page's token is falsy
(so the loop consumes exactly these pages). -/
def wfPages : List Page → Prop
  | [] => True
  | [p] => tokenTruthy p.nextPageToken = false
  | p :: q :: rest => tokenTruthy p.nextPageToken = true ∧ wfPages (q :: rest)

/-- Page sizes as served by the provider for a playlist of N items with
page size 25: every page before the last holds exactly 25 items, the
last holds the 1..25 remaining ones. -/
def wfSizes : List Page → Prop
  | [] => True
  | [p] => 1 ≤ p.items.length ∧ p.items.length ≤ 25
  | p :: q :: rest => p.items.length = 25 ∧ wfSizes (q :: rest)

/-- Zero-pad a number below 100 to two digits, as Python `%m` / `%d` do. -/
def pad2 (n : Nat) : String :=
  if n < 10 then "0" ++ toString n else toString n

/-- A calendar date, as captured once per run by `date.today()`
(source line 87). -/
structure MDate where
  year : Nat
  month : Nat
  day : Nat
deriving DecidableEq, Repr

/-- The date stamp `{today:%Y}{today:%m}{today:%d}` of source line 98,
for four-digit years. -/
def dateStamp (d : MDate) : String :=
  toString d.year ++ pad2 d.month ++ pad2 d.day

/-- The metadata object name of source line 98. -/
def metadataName (playlistId : String) (d : MDate) : String :=
  "youtube-" ++ playlistId ++ "-" ++ dateStamp d ++ ".json"

/-- The throttle duration computed at source line 126:
`min(30 - delay, 0)` where `delay` is the measured upload time. -/
def throttleDuration (elapsed : Rat) : Rat :=
  min (30 - elapsed) 0

/-- `time.sleep(d)`: raises `ValueError` for a negative duration,
returns after (at most) `d` seconds otherwise. -/
def sleepCall (d : Rat) : Except String Unit :=
  if d < 0 then Except.error "sleep length must be non-negative" else Except.ok ()

/-- The environment's behaviour for one track-transfer iteration: the
outcome of the pytube fetch (audio bytes or an exception), the outcome
of the Drive `files().create(...).execute()` call, and the elapsed
upload time measured by the two `perf_counter()` reads. -/
structure ItemBehavior where
  fetch : Except String (List Nat)
  upload : Except String Unit
  elapsed : Rat
deriving Repr

/-- Observable effects of a run: objects created at the storage provider
and warning lines printed by the per-item exception handler. -/
inductive Event where
  | metadataUploaded : String → String → String → Json → Event
  | fetched : String → Event
  | audioUploaded : String → String → String → List Nat → Event
  | warned : String → String → Event

/-- The body of the per-item loop (source lines 106-130): fetch the audio
into a buffer, upload it as `{title}.mp3` with content type `audio/mpeg3`
under the audio parent, then `sleep(min(30 - delay, 0))`; any exception
raised inside the `try` block is caught and logged as a warning naming
the item's title and the error message. -/
def processItem (audioParent : String) (b : ItemBehavior) (item : PlaylistItem) : List Event :=
  match b.fetch with
  | Except.error e => [Event.warned item.title e]
  | Except.ok buf =>
    match b.upload with
    | Except.error e => [Event.fetched item.video, Event.warned item.title e]
    | Except.ok _ =>
      match sleepCall (throttleDuration b.elapsed) with
      | Except.error e =>
        [Event.fetched item.video,
         Event.audioUploaded (item.title ++ ".mp3") audioParent "audio/mpeg3" buf,
         Event.warned item.title e]
      | Except.ok _ =>
        [Event.fetched item.video,
         Event.audioUploaded (item.title ++ ".mp3") audioParent "audio/mpeg3" buf]

/-- The track-transfer loop over the snapshot items (source line 106),
with the environment's behaviour indexed by the item's position. -/
def trackTransfer (audioParent : String) (behavior : Nat → ItemBehavior) :
    List PlaylistItem → List Event
  | [] => []
  | item :: rest =>
    processItem audioParent (behavior 0) item
      ++ trackTransfer audioParent (fun n => behavior (n + 1)) rest

/-- The configuration fields of `Settings` that the orchestration logic
reads (source lines 17-23); credentials, scopes and the API key only
parameterize the opaque provider clients. -/
structure Settings where
  GOOGLE_AUDIO_PARENT_ID : String
  GOOGLE_REPORTING_PARENT_ID : String
  YOUTUBE_PLAYLIST_ID : String
deriving DecidableEq, Repr

/-- The external world of one run: the pages the listing provider serves,
the outcome of the metadata `files().create(...).execute()` call, and the
behaviour of each track-transfer iteration. -/
structure Env where
  pages : List Page
  metadataUpload : Except String Unit
  behavior : Nat → ItemBehavior

/-- Outcome of a run: the events that happened, and `some e` when an
uncaught exception `e` terminated the run. -/
structure RunResult where
  events : List Event
  error : Option String

/-- The `entrypoint` routine (source lines 84-130): consume the playlist
reader into a `Playlist` snapshot (a `ValidationError` here propagates),
upload the serialized snapshot to the reporting parent as
`youtube-{playlist_id}-{YYYYMMDD}.json` with content type
`application/json` (an exception here propagates), then run the
track-transfer loop over the snapshot items. -/
def entrypoint (settings : Settings) (today : MDate) (env : Env) : RunResult :=
  let raw := (youtubePlaylist settings.YOUTUBE_PLAYLIST_ID env.pages).2
  match buildSnapshot raw with
  | Except.error e => { events := [], error := some e }
  | Except.ok items =>
    let pl : Playlist := { items := items, name := none }
    match env.metadataUpload with
    | Except.error e => { events := [], error := some e }
    | Except.ok _ =>
      { events :=
          Event.metadataUploaded (metadataName settings.YOUTUBE_PLAYLIST_ID today)
              settings.GOOGLE_REPORTING_PARENT_ID "application/json" (playlistToJson pl)
            :: trackTransfer settings.GOOGLE_AUDIO_PARENT_ID env.behavior items,
        error := none }

/-- Project a warning event to its (title, message) pair. -/
def Event.warnedOf : Event → Option (String × String)
  | Event.warned t e => some (t, e)
  | _ => none

/-- Project an audio-object creation event to the object name. -/
def Event.audioNameOf : Event → Option String
  | Event.audioUploaded n _ _ _ => some n
  | _ => none

/-- Project a metadata-object creation event to (name, parent, content
type, body). -/
def Event.metadataOf : Event → Option (String × String × String × Json)
  | Event.metadataUploaded n p m j => some (n, p, m, j)
  | _ => none

/-- All warnings printed by a run, in order. -/
def runWarnings (r : RunResult) : List (String × String) :=
  r.events.filterMap Event.warnedOf

/-- All audio object names created by a run, in order. -/
def runAudioUploads (r : RunResult) : List String :=
  r.events.filterMap Event.audioNameOf

/-- All metadata objects created by a run, in order. -/
def runMetadataUploads (r : RunResult) : List (String × String × String × Json) :=
  r.events.filterMap Event.metadataOf

/-- Modelled from the spec: "Serializing then parsing the snapshot
document round-trips all (video_id, title) pairs unchanged."  The parse
direction (pydantic v1 `PlaylistItem` validation of a decoded JSON
value) is not called anywhere in the source; it is modelled here from
pydantic v1 semantics on the value shapes the serializer can emit:
`video` and `title` are required string fields. -/
def playlistItemFromJson : Json → Except String PlaylistItem
  | Json.obj fields =>
    match fields.lookup "video", fields.lookup "title" with
    | some (Json.str v), some (Json.str t) => Except.ok { video := v, title := t }
    | some _, some _ => Except.error "str type expected"
    | _, _ => Except.error "field required"
  | _ => Except.error "value is not a valid dict"

/-- Modelled from the spec: element-wise validation of the decoded
`items` array, failing on the first invalid element (pydantic v1). -/
def parseItems : List Json → Except String (List PlaylistItem)
  | [] => Except.ok []
  | j :: rest =>
    match playlistItemFromJson j with
    | Except.error e => Except.error e
    | Except.ok i =>
      match parseItems rest with
      | Except.error e => Except.error e
      | Except.ok l => Except.ok (i :: l)

/-- Modelled from the spec: pydantic v1 `Playlist` validation of a
decoded JSON value — `items` defaults to `[]` when absent and must
otherwise be a list of valid items; `name` is optional and may be null,
absent, or a string. -/
def playlistFromJson : Json → Except String Playlist
  | Json.obj fields =>
    match (match fields.lookup "items" with
           | none => Except.ok []
           | some (Json.arr xs) => parseItems xs
           | some _ => Except.error "value is not a valid list") with
    | Except.error e => Except.error e
    | Except.ok items =>
      match (match fields.lookup "name" with
             | none => Except.ok (Option.none (α := String))
             | some Json.null => Except.ok none
             | some (Json.str s) => Except.ok (some s)
             | some _ => Except.error "str type expected") with
      | Except.error e => Except.error e
      | Except.ok name => Except.ok { items := items, name := name }
  | _ => Except.error "value is not a valid dict"

/-! ### Helper lemmas -/

theorem throttleDuration_eq_zero {e : Rat} (h : e ≤ 30) : throttleDuration e = 0 := by
  unfold throttleDuration
  exact min_eq_right (by linarith)

theorem throttleDuration_neg {e : Rat} (h : 30 < e) : throttleDuration e < 0 := by
  unfold throttleDuration
  have h1 : 30 - e < 0 := by linarith
  calc min (30 - e) 0 ≤ 30 - e := min_le_left _ _
    _ < 0 := h1

theorem sleepCall_ok {d : Rat} (h : 0 ≤ d) : sleepCall d = Except.ok () := by
  unfold sleepCall
  rw [if_neg (not_lt.mpr h)]

theorem sleepCall_raises {d : Rat} (h : d < 0) :
    sleepCall d = Except.error "sleep length must be non-negative" := by
  unfold sleepCall
  rw [if_pos h]

theorem processItem_fetch_error {b : ItemBehavior} {e : String}
    (audioParent : String) (item : PlaylistItem) (hf : b.fetch = Except.error e) :
    processItem audioParent b item = [Event.warned item.title e] := by
  unfold processItem
  rw [hf]

theorem processItem_upload_error {b : ItemBehavior} {buf : List Nat} {e : String}
    (audioParent : String) (item : PlaylistItem)
    (hf : b.fetch = Except.ok buf) (hu : b.upload = Except.error e) :
    processItem audioParent b item = [Event.fetched item.video, Event.warned item.title e] := by
  unfold processItem
  rw [hf, hu]

theorem processItem_ok {b : ItemBehavior} {buf : List Nat}
    (audioParent : String) (item : PlaylistItem)
    (hf : b.fetch = Except.ok buf) (hu : b.upload = Except.ok ())
    (he : b.elapsed ≤ 30) :
    processItem audioParent b item =
      [Event.fetched item.video,
       Event.audioUploaded (item.title ++ ".mp3") audioParent "audio/mpeg3" buf] := by
  unfold processItem
  rw [hf, hu, throttleDuration_eq_zero he, sleepCall_ok le_rfl]

theorem processItem_slow {b : ItemBehavior} {buf : List Nat}
    (audioParent : String) (item : PlaylistItem)
    (hf : b.fetch = Except.ok buf) (hu : b.upload = Except.ok ())
    (he : 30 < b.elapsed) :
    processItem audioParent b item =
      [Event.fetched item.video,
       Event.audioUploaded (item.title ++ ".mp3") audioParent "audio/mpeg3" buf,
       Event.warned item.title "sleep length must be non-negative"] := by
  unfold processItem
  rw [hf, hu, sleepCall_raises (throttleDuration_neg he)]

/-- C2 helper: the three observable outcomes of the throttle step,
by the measured upload time. -/
theorem throttle_cases (e : Rat) :
    throttleDuration e ≤ 0
    ∧ (e ≤ 30 → throttleDuration e = 0 ∧ sleepCall (throttleDuration e) = Except.ok ())
    ∧ (30 < e → throttleDuration e < 0
        ∧ sleepCall (throttleDuration e) = Except.error "sleep length must be non-negative") := by
  refine ⟨min_le_right _ _, fun h => ?_, fun h => ?_⟩
  · exact ⟨throttleDuration_eq_zero h, by rw [throttleDuration_eq_zero h]; exact sleepCall_ok le_rfl⟩
  · exact ⟨throttleDuration_neg h, sleepCall_raises (throttleDuration_neg h)⟩

/-! ### C2 — the throttle never delays (corrected) -/

/-- C2 (amended): the post-upload sleep duration is `min(30 - elapsed, 0)`,
never positive; it is 0 (and the sleep returns at once) whenever
`elapsed ≤ 30`, and for `elapsed > 30` it is negative, in which case the
sleep call raises `ValueError` (caught by the per-item handler) instead
of being a no-op.  In no case does the throttle delay processing by a
positive duration. -/
theorem throttle_policy (e : Rat) :
    throttleDuration e = min (30 - e) 0
    ∧ throttleDuration e ≤ 0
    ∧ (e ≤ 30 → throttleDuration e = 0 ∧ sleepCall (throttleDuration e) = Except.ok ())
    ∧ (30 < e → throttleDuration e < 0
        ∧ sleepCall (throttleDuration e) = Except.error "sleep length must be non-negative") :=
  ⟨rfl, throttle_cases e⟩

/-- C2 witness: at elapsed time 31 the duration is negative and the
sleep call raises. -/
theorem throttle_policy_witness :
    throttleDuration 31 < 0
    ∧ sleepCall (throttleDuration 31) = Except.error "sleep length must be non-negative" :=
  (throttle_policy 31).2.2.2 (by norm_num)

/-- C2 counterexample to the claim as stated: at elapsed time exactly 30
the computed duration is 0, not negative; and at elapsed time 31 the
negative duration makes the sleep call raise `ValueError` — it is not a
no-op (the exception is what the per-item handler then logs). -/
theorem throttle_claim_counterexample :
    throttleDuration 30 = 0
    ∧ sleepCall (throttleDuration 31) = Except.error "sleep length must be non-negative" :=
  ⟨throttleDuration_eq_zero le_rfl, sleepCall_raises (throttleDuration_neg (by norm_num))⟩

/-! ### C10 — a slow successful upload is still warned about -/

/-- C10: an item whose fetch and upload both succeed but whose measured
upload time exceeds 30 seconds produces the audio object AND a warning:
`min(30 - elapsed, 0)` is negative, `time.sleep` raises `ValueError`
inside the per-item try block, and the handler logs the item as failed.
A warning therefore does not imply the item's upload failed. -/
theorem slow_item_warned_despite_upload
    (audioParent : String) (item : PlaylistItem) (b : ItemBehavior) (buf : List Nat)
    (hf : b.fetch = Except.ok buf) (hu : b.upload = Except.ok ())
    (he : 30 < b.elapsed) :
    processItem audioParent b item =
      [Event.fetched item.video,
       Event.audioUploaded (item.title ++ ".mp3") audioParent "audio/mpeg3" buf,
       Event.warned item.title "sleep length must be non-negative"] := by
  unfold processItem
  rw [hf, hu, sleepCall_raises (throttleDuration_neg he)]

/-- C10 witness: a concrete item fetched and uploaded successfully with
a measured upload time of 31 seconds is uploaded and then warned. -/
theorem slow_item_warned_despite_upload_witness :
    processItem "AUD" { fetch := Except.ok [7], upload := Except.ok (), elapsed := 31 }
        { video := "v", title := "T" } =
      [Event.fetched "v", Event.audioUploaded "T.mp3" "AUD" "audio/mpeg3" [7],
       Event.warned "T" "sleep length must be non-negative"] :=
  slow_item_warned_despite_upload "AUD" { video := "v", title := "T" } _ [7] rfl rfl (by norm_num)

/-! ### Track-transfer trace lemmas -/

/-- Item behaviour in which the pytube fetch and the Drive upload both
return normally. -/
def fetchUploadOk (b : ItemBehavior) : Prop :=
  (∃ buf, b.fetch = Except.ok buf) ∧ b.upload = Except.ok ()

/-- Item behaviour in which the fetch, or else the upload after a
successful fetch, raises the exception `e`. -/
def fetchUploadFails (b : ItemBehavior) (e : String) : Prop :=
  b.fetch = Except.error e
    ∨ ((∃ buf, b.fetch = Except.ok buf) ∧ b.upload = Except.error e)

theorem processItem_trace_ok {b : ItemBehavior} (p : String) (item : PlaylistItem)
    (h : fetchUploadOk b) (he : b.elapsed ≤ 30) :
    (processItem p b item).filterMap Event.warnedOf = []
    ∧ (processItem p b item).filterMap Event.audioNameOf = [item.title ++ ".mp3"] := by
  obtain ⟨⟨buf, hf⟩, hu⟩ := h
  rw [processItem_ok p item hf hu he]
  exact ⟨rfl, rfl⟩

theorem processItem_trace_fail {b : ItemBehavior} {e : String} (p : String)
    (item : PlaylistItem) (h : fetchUploadFails b e) :
    (processItem p b item).filterMap Event.warnedOf = [(item.title, e)]
    ∧ (processItem p b item).filterMap Event.audioNameOf = [] := by
  rcases h with hf | ⟨⟨buf, hf⟩, hu⟩
  · rw [processItem_fetch_error p item hf]
    exact ⟨rfl, rfl⟩
  · rw [processItem_upload_error p item hf hu]
    exact ⟨rfl, rfl⟩

theorem trackTransfer_all_ok (p : String) (items : List PlaylistItem) :
    ∀ behavior : Nat → ItemBehavior,
    (∀ j, j < items.length → fetchUploadOk (behavior j) ∧ (behavior j).elapsed ≤ 30) →
    (trackTransfer p behavior items).filterMap Event.warnedOf = []
    ∧ (trackTransfer p behavior items).filterMap Event.audioNameOf
        = items.map (fun i => i.title ++ ".mp3") := by
  induction items with
  | nil => exact fun _ _ => ⟨rfl, rfl⟩
  | cons item rest ih =>
    intro behavior h
    have h0 := h 0 (by simp)
    have hrest := ih (fun n => behavior (n + 1))
      (fun j hj => h (j + 1) (by simpa using Nat.succ_lt_succ hj))
    have hhead := processItem_trace_ok p item h0.1 h0.2
    unfold trackTransfer
    rw [List.filterMap_append, List.filterMap_append, hhead.1, hhead.2,
      hrest.1, hrest.2]
    exact ⟨rfl, rfl⟩

theorem trackTransfer_one_fail (p : String) (items : List PlaylistItem) :
    ∀ (behavior : Nat → ItemBehavior) (K : Nat) (e : String) (hK : K < items.length),
    fetchUploadFails (behavior K) e →
    (∀ j, j < items.length → j ≠ K →
      fetchUploadOk (behavior j) ∧ (behavior j).elapsed ≤ 30) →
    (trackTransfer p behavior items).filterMap Event.warnedOf
        = [((items.get ⟨K, hK⟩).title, e)]
    ∧ (trackTransfer p behavior items).filterMap Event.audioNameOf
        = (items.eraseIdx K).map (fun i => i.title ++ ".mp3") := by
  induction items with
  | nil => intro _ K _ hK _ _; exact absurd hK (Nat.not_lt_zero K)
  | cons item rest ih =>
    intro behavior K e hK hfail hok
    match K with
    | 0 =>
      have hrest := trackTransfer_all_ok p rest (fun n => behavior (n + 1))
        (fun j hj => hok (j + 1) (by simpa using Nat.succ_lt_succ hj) (Nat.succ_ne_zero j))
      have hhead := processItem_trace_fail p item hfail
      unfold trackTransfer
      rw [List.filterMap_append, List.filterMap_append, hhead.1, hhead.2,
        hrest.1, hrest.2]
      exact ⟨rfl, rfl⟩
    | K' + 1 =>
      have h0 := hok 0 (by simp) (Nat.succ_ne_zero K').symm
      have hK' : K' < rest.length := by simpa using Nat.lt_of_succ_lt_succ hK
      have hrest := ih (fun n => behavior (n + 1)) K' e hK' hfail
        (fun j hj hne =>
          hok (j + 1) (by simpa using Nat.succ_lt_succ hj)
            (fun hc => hne (Nat.succ_injective hc)))
      have hhead := processItem_trace_ok p item h0.1 h0.2
      unfold trackTransfer
      rw [List.filterMap_append, List.filterMap_append, hhead.1, hhead.2,
        hrest.1, hrest.2]
      exact ⟨rfl, rfl⟩

/-- Unfolding of a run that gets past snapshot building and the metadata
upload: one metadata-object creation, then the track-transfer trace. -/
theorem entrypoint_ok (settings : Settings) (today : MDate) (env : Env)
    (items : List PlaylistItem)
    (hsnap : buildSnapshot (youtubePlaylist settings.YOUTUBE_PLAYLIST_ID env.pages).2
      = Except.ok items)
    (hmeta : env.metadataUpload = Except.ok ()) :
    entrypoint settings today env =
      { events :=
          Event.metadataUploaded (metadataName settings.YOUTUBE_PLAYLIST_ID today)
              settings.GOOGLE_REPORTING_PARENT_ID "application/json"
              (playlistToJson { items := items, name := none })
            :: trackTransfer settings.GOOGLE_AUDIO_PARENT_ID env.behavior items,
        error := none } := by
  simp only [entrypoint, hsnap, hmeta]

/-- A sample configuration for the concrete witness runs. -/
def sampleSettings : Settings :=
  { GOOGLE_AUDIO_PARENT_ID := "AUD"
    GOOGLE_REPORTING_PARENT_ID := "REP"
    YOUTUBE_PLAYLIST_ID := "PL" }

/-- A sample run date for the concrete witness runs. -/
def sampleDate : MDate := { year := 2024, month := 1, day := 2 }

/-! ### C1 — per-item failure isolation (corrected) -/

/-- C1 (amended): in a run whose snapshot builds and whose metadata
upload succeeds, if exactly one item K fails its fetch or upload with
exception `e` while every other item's fetch and upload succeed AND no
successful item's measured upload time exceeds 30 seconds (otherwise the
negative-sleep `ValueError` logs an extra warning, see C10), then the
run completes with no uncaught exception, logs exactly one warning —
naming item K's title and the error message — and creates exactly N-1
audio objects, all items except K, in snapshot order. -/
theorem track_failure_isolated (settings : Settings) (today : MDate) (env : Env)
    (items : List PlaylistItem) (K : Nat) (e : String) (hK : K < items.length)
    (hsnap : buildSnapshot (youtubePlaylist settings.YOUTUBE_PLAYLIST_ID env.pages).2
      = Except.ok items)
    (hmeta : env.metadataUpload = Except.ok ())
    (hfail : fetchUploadFails (env.behavior K) e)
    (hok : ∀ j, j < items.length → j ≠ K →
      fetchUploadOk (env.behavior j) ∧ (env.behavior j).elapsed ≤ 30) :
    (entrypoint settings today env).error = none
    ∧ runWarnings (entrypoint settings today env) = [((items.get ⟨K, hK⟩).title, e)]
    ∧ runAudioUploads (entrypoint settings today env)
        = (items.eraseIdx K).map (fun i => i.title ++ ".mp3")
    ∧ (runAudioUploads (entrypoint settings today env)).length = items.length - 1 := by
  have htt := trackTransfer_one_fail settings.GOOGLE_AUDIO_PARENT_ID items
    env.behavior K e hK hfail hok
  rw [entrypoint_ok settings today env items hsnap hmeta]
  refine ⟨rfl, ?_, ?_, ?_⟩
  · simpa [runWarnings, Event.warnedOf] using htt.1
  · simpa [runAudioUploads, Event.audioNameOf] using htt.2
  · simp only [runAudioUploads, List.filterMap_cons, Event.audioNameOf]
    rw [htt.2, List.length_map]
    have := List.length_eraseIdx_add_one hK
    omega

/-- The environment of C1's witness run: one page of three items; the
middle item's upload raises "quota", the other two fetch and upload
successfully with a 5-second measured upload time. -/
def c1WitnessEnv : Env :=
  { pages := [{ items := [(some "v1", some "A"), (some "v2", some "B"),
        (some "v3", some "C")], nextPageToken := none }]
    metadataUpload := Except.ok ()
    behavior := fun n =>
      if n = 1 then { fetch := Except.ok [2], upload := Except.error "quota", elapsed := 0 }
      else { fetch := Except.ok [3], upload := Except.ok (), elapsed := 5 } }

/-- C1 witness: in the three-item run where only the middle item fails,
the run completes, warns once naming it, and creates the other two audio
objects in order. -/
theorem track_failure_isolated_witness :
    (entrypoint sampleSettings sampleDate c1WitnessEnv).error = none
    ∧ runWarnings (entrypoint sampleSettings sampleDate c1WitnessEnv) = [("B", "quota")]
    ∧ runAudioUploads (entrypoint sampleSettings sampleDate c1WitnessEnv)
        = ["A.mp3", "C.mp3"] := by
  have h := track_failure_isolated sampleSettings sampleDate c1WitnessEnv
    [{ video := "v1", title := "A" }, { video := "v2", title := "B" },
     { video := "v3", title := "C" }]
    1 "quota" (by norm_num) rfl rfl
    (Or.inr ⟨⟨[2], rfl⟩, rfl⟩)
    (by
      intro j hj hne
      match j with
      | 0 => exact ⟨⟨⟨[3], rfl⟩, rfl⟩, by norm_num [c1WitnessEnv]⟩
      | 1 => exact absurd rfl hne
      | 2 => exact ⟨⟨⟨[3], rfl⟩, rfl⟩, by norm_num [c1WitnessEnv]⟩
      | n + 3 => exact absurd hj (by simp))
  exact ⟨h.1, h.2.1, h.2.2.1⟩

/-- The environment of C1's counterexample run: two items; item 0's
fetch raises "boom", item 1's fetch and upload succeed but its measured
upload time is 31 seconds. -/
def c1CounterEnv : Env :=
  { pages :=
      [{ items := [(some "v1", some "A"), (some "v2", some "B")]
         nextPageToken := none }]
    metadataUpload := Except.ok ()
    behavior := fun n =>
      if n = 0 then { fetch := Except.error "boom", upload := Except.ok (), elapsed := 0 }
      else { fetch := Except.ok [1], upload := Except.ok (), elapsed := 31 } }

/-- C1 counterexample to the claim as stated: only item 0's fetch raises
and item 1's fetch and upload both succeed, yet the run logs TWO
warnings, because item 1's 31-second measured upload time makes the
sleep call raise inside the per-item try block.  The N-1 audio-object
part still holds. -/
theorem track_failure_claim_counterexample :
    (c1CounterEnv.behavior 1).fetch = Except.ok [1]
    ∧ (c1CounterEnv.behavior 1).upload = Except.ok ()
    ∧ runAudioUploads (entrypoint sampleSettings sampleDate c1CounterEnv) = ["B.mp3"]
    ∧ runWarnings (entrypoint sampleSettings sampleDate c1CounterEnv)
        = [("A", "boom"), ("B", "sleep length must be non-negative")] := by
  have h0 : processItem sampleSettings.GOOGLE_AUDIO_PARENT_ID (c1CounterEnv.behavior 0)
      { video := "v1", title := "A" } = [Event.warned "A" "boom"] :=
    processItem_fetch_error sampleSettings.GOOGLE_AUDIO_PARENT_ID
      { video := "v1", title := "A" } rfl
  have h1 : processItem sampleSettings.GOOGLE_AUDIO_PARENT_ID (c1CounterEnv.behavior (0 + 1))
      { video := "v2", title := "B" }
      = [Event.fetched "v2",
         Event.audioUploaded "B.mp3" sampleSettings.GOOGLE_AUDIO_PARENT_ID "audio/mpeg3" [1],
         Event.warned "B" "sleep length must be non-negative"] :=
    processItem_slow sampleSettings.GOOGLE_AUDIO_PARENT_ID { video := "v2", title := "B" }
      rfl rfl (by norm_num [c1CounterEnv])
  have hrun := entrypoint_ok sampleSettings sampleDate c1CounterEnv
    [{ video := "v1", title := "A" }, { video := "v2", title := "B" }] rfl rfl
  refine ⟨rfl, rfl, ?_, ?_⟩
  · rw [runAudioUploads, hrun]
    simp only [trackTransfer, List.filterMap_cons, List.filterMap_append, h0, h1]
    rfl
  · rw [runWarnings, hrun]
    simp only [trackTransfer, List.filterMap_cons, List.filterMap_append, h0, h1]
    rfl

/-! ### C4 — a metadata-publishing failure aborts before any transfer -/

/-- C4: in a run whose snapshot builds, if the metadata-publishing
upload raises `e` then the exception propagates uncaught and the run
terminates with an empty event trace — zero fetches and zero audio
uploads; and whenever the metadata upload succeeds, the run's event
trace starts with the metadata creation followed by the track-transfer
trace, so track transfer begins only after the metadata upload has
returned successfully. -/
theorem metadata_failure_aborts (settings : Settings) (today : MDate) (env : Env)
    (items : List PlaylistItem)
    (hsnap : buildSnapshot (youtubePlaylist settings.YOUTUBE_PLAYLIST_ID env.pages).2
      = Except.ok items) :
    (∀ e, env.metadataUpload = Except.error e →
      entrypoint settings today env = { events := [], error := some e })
    ∧ (env.metadataUpload = Except.ok () →
      (entrypoint settings today env).events
        = Event.metadataUploaded (metadataName settings.YOUTUBE_PLAYLIST_ID today)
            settings.GOOGLE_REPORTING_PARENT_ID "application/json"
            (playlistToJson { items := items, name := none })
          :: trackTransfer settings.GOOGLE_AUDIO_PARENT_ID env.behavior items) := by
  constructor
  · intro e he
    simp only [entrypoint, hsnap, he]
  · intro hm
    rw [entrypoint_ok settings today env items hsnap hm]

/-- The environment of C4's witness run: one healthy item, but the
metadata upload raises "denied". -/
def c4Env : Env :=
  { pages := [{ items := [(some "v1", some "A")], nextPageToken := none }]
    metadataUpload := Except.error "denied"
    behavior := fun _ => { fetch := Except.ok [1], upload := Except.ok (), elapsed := 0 } }

/-- C4 witness: with a failing metadata upload the run ends with the
uncaught exception and an empty event trace. -/
theorem metadata_failure_aborts_witness :
    entrypoint sampleSettings sampleDate c4Env = { events := [], error := some "denied" } :=
  (metadata_failure_aborts sampleSettings sampleDate c4Env
    [{ video := "v1", title := "A" }] rfl).1 "denied" rfl

/-! ### C9 — the empty playlist still publishes one metadata object -/

/-- C9: a run whose reader yields no items and whose metadata upload
succeeds produces exactly one event: the creation of the metadata JSON
object with an empty items list — zero fetch calls and zero audio
uploads. -/
theorem empty_playlist_run (settings : Settings) (today : MDate) (env : Env)
    (hempty : (youtubePlaylist settings.YOUTUBE_PLAYLIST_ID env.pages).2 = [])
    (hmeta : env.metadataUpload = Except.ok ()) :
    entrypoint settings today env =
      { events := [Event.metadataUploaded (metadataName settings.YOUTUBE_PLAYLIST_ID today)
          settings.GOOGLE_REPORTING_PARENT_ID "application/json"
          (Json.obj [("items", Json.arr []), ("name", Json.null)])]
        error := none } := by
  have hsnap : buildSnapshot (youtubePlaylist settings.YOUTUBE_PLAYLIST_ID env.pages).2
      = Except.ok [] := by rw [hempty]; rfl
  have h := entrypoint_ok settings today env [] hsnap hmeta
  rw [h]
  rfl

/-- The environment of C9's witness run: the provider answers the single
page request with no items and no continuation token. -/
def c9Env : Env :=
  { pages := [{ items := [], nextPageToken := none }]
    metadataUpload := Except.ok ()
    behavior := fun _ => { fetch := Except.ok [], upload := Except.ok (), elapsed := 0 } }

/-- C9 witness: the empty-playlist run creates exactly the one
empty-items metadata object. -/
theorem empty_playlist_run_witness :
    entrypoint sampleSettings sampleDate c9Env =
      { events := [Event.metadataUploaded "youtube-PL-20240102.json" "REP" "application/json"
          (Json.obj [("items", Json.arr []), ("name", Json.null)])]
        error := none } :=
  empty_playlist_run sampleSettings sampleDate c9Env rfl rfl

/-! ### C6 — the metadata object's name and body -/

theorem processItem_no_metadata (p : String) (b : ItemBehavior) (item : PlaylistItem) :
    (processItem p b item).filterMap Event.metadataOf = [] := by
  obtain ⟨f, u, el⟩ := b
  unfold processItem
  rcases f with e | buf
  · rfl
  · rcases u with e | uu
    · rfl
    · rcases h : sleepCall (throttleDuration el) with e | uu2 <;> simp only [h] <;> rfl

theorem trackTransfer_no_metadata (p : String) (items : List PlaylistItem) :
    ∀ behavior : Nat → ItemBehavior,
    (trackTransfer p behavior items).filterMap Event.metadataOf = [] := by
  induction items with
  | nil => intro _; rfl
  | cons item rest ih =>
    intro behavior
    unfold trackTransfer
    rw [List.filterMap_append, processItem_no_metadata, ih]
    rfl

/-- C6: every run that gets past snapshot building and whose metadata
upload succeeds creates exactly one metadata object at the reporting
destination, named `youtube-{playlist_id}-{YYYYMMDD}.json` for the run
date, with content type `application/json`, whose body lists the
snapshot's items in order under "items" and carries a null "name". -/
theorem metadata_object_name_and_body (settings : Settings) (today : MDate) (env : Env)
    (items : List PlaylistItem)
    (hsnap : buildSnapshot (youtubePlaylist settings.YOUTUBE_PLAYLIST_ID env.pages).2
      = Except.ok items)
    (hmeta : env.metadataUpload = Except.ok ()) :
    runMetadataUploads (entrypoint settings today env)
      = [(metadataName settings.YOUTUBE_PLAYLIST_ID today,
          settings.GOOGLE_REPORTING_PARENT_ID, "application/json",
          Json.obj [("items", Json.arr (items.map playlistItemToJson)), ("name", Json.null)])] := by
  rw [runMetadataUploads, entrypoint_ok settings today env items hsnap hmeta]
  show (Event.metadataUploaded _ _ _ _ :: trackTransfer _ _ _).filterMap Event.metadataOf = _
  rw [List.filterMap_cons]
  rw [trackTransfer_no_metadata]
  rfl

/-- The environment of C6's witness run, taken from the spec's example:
playlist items ("v1", "Song A") and ("v2", "Song B") on a single page,
everything healthy. -/
def c6Env : Env :=
  { pages :=
      [{ items := [(some "v1", some "Song A"), (some "v2", some "Song B")]
         nextPageToken := none }]
    metadataUpload := Except.ok ()
    behavior := fun _ => { fetch := Except.ok [9], upload := Except.ok (), elapsed := 1 } }

/-- C6 witness — the spec's example: playlist id "PL_x", two items, run
on 2024-03-01 creates `youtube-PL_x-20240301.json` whose JSON body is an
object with an "items" array of the two (video, title) objects in order
and a null "name". -/
theorem metadata_object_name_and_body_witness :
    runMetadataUploads (entrypoint
        { GOOGLE_AUDIO_PARENT_ID := "AUD"
          GOOGLE_REPORTING_PARENT_ID := "REP"
          YOUTUBE_PLAYLIST_ID := "PL_x" }
        { year := 2024, month := 3, day := 1 } c6Env)
      = [("youtube-PL_x-20240301.json", "REP", "application/json",
          Json.obj [("items", Json.arr
              [Json.obj [("video", Json.str "v1"), ("title", Json.str "Song A")],
               Json.obj [("video", Json.str "v2"), ("title", Json.str "Song B")]]),
            ("name", Json.null)])] :=
  metadata_object_name_and_body
    { GOOGLE_AUDIO_PARENT_ID := "AUD"
      GOOGLE_REPORTING_PARENT_ID := "REP"
      YOUTUBE_PLAYLIST_ID := "PL_x" }
    { year := 2024, month := 3, day := 1 } c6Env
    [{ video := "v1", title := "Song A" }, { video := "v2", title := "Song B" }]
    rfl rfl

/-! ### C5 — pagination of the Playlist Reader -/

theorem youtubePlaylistAux_cons (pid : String) (tok : Option String)
    (page : Page) (rest : List Page) :
    youtubePlaylistAux pid tok (page :: rest) =
      if tokenTruthy page.nextPageToken then
        ({ part := "snippet,contentDetails", maxResults := 25
           playlistId := pid, pageToken := tok }
            :: (youtubePlaylistAux pid page.nextPageToken rest).1,
         page.items ++ (youtubePlaylistAux pid page.nextPageToken rest).2)
      else
        ([{ part := "snippet,contentDetails", maxResults := 25
            playlistId := pid, pageToken := tok }], page.items) := rfl

/-- Behaviour of the page loop on a well-formed page sequence, for any
initial token: it yields the concatenation of all pages' items and
issues one request per page, the first carrying the initial token and
each later one carrying the previous page's continuation token, always
with `part="snippet,contentDetails"`, `maxResults=25` and the playlist
id. -/
theorem youtubePlaylistAux_spec (pid : String) :
    ∀ (pages : List Page) (tok : Option String), pages ≠ [] → wfPages pages →
    (youtubePlaylistAux pid tok pages).2 = (pages.map Page.items).join
    ∧ (youtubePlaylistAux pid tok pages).1.map PageRequest.pageToken
        = tok :: (pages.dropLast.map Page.nextPageToken)
    ∧ ∀ r ∈ (youtubePlaylistAux pid tok pages).1,
        r.part = "snippet,contentDetails" ∧ r.maxResults = 25 ∧ r.playlistId = pid := by
  intro pages
  induction pages with
  | nil => intro tok h _; exact absurd rfl h
  | cons page rest ih =>
    intro tok _ hwf
    cases rest with
    | nil =>
      have hlast : tokenTruthy page.nextPageToken = false := hwf
      rw [youtubePlaylistAux_cons, hlast, if_neg Bool.false_ne_true]
      refine ⟨by simp, by simp, ?_⟩
      intro r hr
      rw [List.mem_singleton] at hr
      subst hr
      exact ⟨rfl, rfl, rfl⟩
    | cons q rest' =>
      obtain ⟨htok, hwf'⟩ := hwf
      obtain ⟨hitems, hreqs, hall⟩ := ih page.nextPageToken (by simp) hwf'
      rw [youtubePlaylistAux_cons, htok, if_pos rfl]
      refine ⟨?_, ?_, ?_⟩
      · simpa [hitems] using rfl
      · simp only [List.map_cons, hreqs]
        rfl
      · intro r hr
        rcases List.mem_cons.mp hr with h | h
        · subst h; exact ⟨rfl, rfl, rfl⟩
        · exact hall r h

/-- With full pages of 25 before a final page of 1..25 items, the number
of pages is the ceiling of the item count divided by 25. -/
theorem wfSizes_page_count :
    ∀ pages : List Page, pages ≠ [] → wfSizes pages →
    pages.length = ((pages.map Page.items).join.length + 24) / 25 := by
  intro pages
  induction pages with
  | nil => intro h _; exact absurd rfl h
  | cons page rest ih =>
    intro _ hsz
    cases rest with
    | nil =>
      obtain ⟨h1, h2⟩ := hsz
      simp only [List.map_cons, List.map_nil, List.join_cons, List.join_nil,
        List.append_nil, List.length_cons, List.length_nil]
      omega
    | cons q rest' =>
      obtain ⟨h25, hsz'⟩ := hsz
      have h := ih (by simp) hsz'
      simp only [List.map_cons, List.join_cons, List.length_append, List.length_cons] at h ⊢
      omega

/-- C5: against a provider serving a playlist's items on well-formed
pages (each page before the last full with 25 items and a truthy
continuation token, the last with the 1..25 remaining items and no
token), the Playlist Reader yields exactly the N items in provider page
order, across ceil(N/25) requests of fixed page size 25: the first
request carries no page token, each later request carries the previous
page's continuation token, and the loop stops exactly at the page whose
token is missing. -/
theorem playlist_reader_pagination (pid : String) (pages : List Page)
    (hne : pages ≠ []) (hwf : wfPages pages) (hsz : wfSizes pages) :
    (youtubePlaylist pid pages).2 = (pages.map Page.items).join
    ∧ pages.length = ((youtubePlaylist pid pages).2.length + 24) / 25
    ∧ (youtubePlaylist pid pages).1.length = pages.length
    ∧ (youtubePlaylist pid pages).1.map PageRequest.pageToken
        = none :: (pages.dropLast.map Page.nextPageToken)
    ∧ (∀ r ∈ (youtubePlaylist pid pages).1,
        r.part = "snippet,contentDetails" ∧ r.maxResults = 25 ∧ r.playlistId = pid) := by
  obtain ⟨hitems, hreqs, hall⟩ := youtubePlaylistAux_spec pid pages none hne hwf
  refine ⟨hitems, ?_, ?_, hreqs, hall⟩
  · rw [show (youtubePlaylist pid pages).2 = (pages.map Page.items).join from hitems]
    exact wfSizes_page_count pages hne hsz
  · have hlenmap := congrArg List.length hreqs
    rw [List.length_map] at hlenmap
    have hdl : pages.dropLast.length = pages.length - 1 := List.length_dropLast pages
    have hpos : pages.length ≠ 0 := by
      cases pages with
      | nil => exact absurd rfl hne
      | cons a l => simp
    simp only [List.length_cons, List.length_map] at hlenmap
    show (youtubePlaylistAux pid none pages).1.length = pages.length
    omega

/-- The provider pages of C5's witness: 26 items served as a full page
of 25 with continuation token "T2" followed by a final page of 1. -/
def c5Pages : List Page :=
  [{ items := List.replicate 25 (some "v", some "t"), nextPageToken := some "T2" },
   { items := [(some "w", some "u")], nextPageToken := none }]

/-- C5 witness: on the concrete 26-item two-page playlist the reader
yields all 26 pairs in order, 2 = ceil(26/25) pages are requested, and
the two requests carry no token and then token "T2". -/
theorem playlist_reader_pagination_witness :
    (youtubePlaylist "PL" c5Pages).2
        = List.replicate 25 ((some "v" : Option String), (some "t" : Option String))
            ++ [(some "w", some "u")]
    ∧ (youtubePlaylist "PL" c5Pages).2.length = 26
    ∧ c5Pages.length = (26 + 24) / 25
    ∧ (youtubePlaylist "PL" c5Pages).1.map PageRequest.pageToken = [none, some "T2"] := by
  obtain ⟨h1, h2, h3, h4, h5⟩ := playlist_reader_pagination "PL" c5Pages
    (by simp [c5Pages]) ⟨rfl, rfl⟩ ⟨rfl, Nat.le_refl 1, by norm_num⟩
  exact ⟨h1, by rfl, h2, h4⟩

/-! ### C3 — items with missing fields: yielded, but fatal to the snapshot -/

theorem buildSnapshot_error_of_missing :
    ∀ (raw : List (Option String × Option String)) (v t : Option String),
    (v, t) ∈ raw → (v = none ∨ t = none) →
    ∃ e, buildSnapshot raw = Except.error e := by
  intro raw
  induction raw with
  | nil => intro v t h _; exact absurd h (List.not_mem_nil _)
  | cons p rest ih =>
    intro v t hmem hnone
    rcases List.mem_cons.mp hmem with heq | hmem'
    · rcases hnone with hv | ht
      · subst heq; subst hv
        exact ⟨_, rfl⟩
      · subst heq; subst ht
        cases v with
        | none => exact ⟨_, rfl⟩
        | some s => exact ⟨_, rfl⟩
    · obtain ⟨e, he⟩ := ih v t hmem' hnone
      rcases p with ⟨pv, pt⟩
      cases pv with
      | none => exact ⟨_, rfl⟩
      | some sv =>
        cases pt with
        | none => exact ⟨_, rfl⟩
        | some st =>
          refine ⟨e, ?_⟩
          have hstep : buildSnapshot ((some sv, some st) :: rest) =
              match buildSnapshot rest with
              | Except.error e => Except.error e
              | Except.ok items => Except.ok ({ video := sv, title := st } :: items) := rfl
          rw [hstep, he]

/-- C3 (amended): the Playlist Reader performs no filtering — every item
of every page is yielded, a missing video id or title surfacing as
`None` in its pair; but such a pair does NOT flow into the snapshot like
any other: wrapping it into a `PlaylistItem` raises a pydantic
`ValidationError` (a non-Optional `str` field rejects `None`), so
snapshot building — which runs outside the per-item try block — aborts
the run. -/
theorem missing_fields_yielded_but_fatal (pid : String) (pages : List Page)
    (hne : pages ≠ []) (hwf : wfPages pages) :
    (youtubePlaylist pid pages).2 = (pages.map Page.items).join
    ∧ (∀ v t : Option String, (v, t) ∈ (youtubePlaylist pid pages).2 →
        (v = none ∨ t = none) →
        ∃ e, buildSnapshot (youtubePlaylist pid pages).2 = Except.error e) := by
  obtain ⟨hitems, -, -⟩ := youtubePlaylistAux_spec pid pages none hne hwf
  exact ⟨hitems, fun v t hmem hnone => buildSnapshot_error_of_missing _ v t hmem hnone⟩

/-- The single provider page of C3's concrete runs: its first item lacks
the video id, its second is complete. -/
def c3Pages : List Page :=
  [{ items := [(none, some "T"), (some "v2", some "U")], nextPageToken := none }]

/-- The environment of C3's concrete runs: healthy fetch/upload/metadata
behaviour, so that the only anomaly is the missing video id. -/
def c3Env : Env :=
  { pages := c3Pages
    metadataUpload := Except.ok ()
    behavior := fun _ => { fetch := Except.ok [1], upload := Except.ok (), elapsed := 0 } }

/-- C3 witness: on the concrete page the reader yields both pairs —
including the one with the missing video id — and snapshot building
fails on it. -/
theorem missing_fields_yielded_but_fatal_witness :
    (youtubePlaylist "PL" c3Pages).2 = (c3Pages.map Page.items).join
    ∧ (∃ e, buildSnapshot (youtubePlaylist "PL" c3Pages).2 = Except.error e) := by
  obtain ⟨h1, h2⟩ := missing_fields_yielded_but_fatal "PL" c3Pages (by simp [c3Pages]) rfl
  exact ⟨h1, h2 none (some "T") (by decide) (Or.inl rfl)⟩

/-- C3 counterexample to the claim as stated: the pair lacking its video
id is yielded by the reader, but instead of flowing into the snapshot
the whole run aborts during snapshot building with the propagating
`ValidationError` — no event happens at all, not even for the complete
second item. -/
theorem missing_fields_claim_counterexample :
    (youtubePlaylist "PL" c3Pages).2 = [(none, some "T"), (some "v2", some "U")]
    ∧ entrypoint sampleSettings sampleDate c3Env =
        { events := []
          error := some "validation error for PlaylistItem: video: none is not an allowed type" } :=
  ⟨rfl, rfl⟩

/-! ### C7 — serialize-then-parse round-trips the snapshot -/

theorem parseItems_map_toJson (items : List PlaylistItem) :
    parseItems (items.map playlistItemToJson) = Except.ok items := by
  induction items with
  | nil => rfl
  | cons i rest ih =>
    have hstep : parseItems ((i :: rest).map playlistItemToJson) =
        match parseItems (rest.map playlistItemToJson) with
        | Except.error e => Except.error e
        | Except.ok l => Except.ok (i :: l) := rfl
    rw [hstep, ih]

/-- C7: serializing a `Playlist` to its JSON document and parsing that
document back yields the same `Playlist` — every (video, title) pair and
the item order are preserved. -/
theorem snapshot_roundtrip (p : Playlist) :
    playlistFromJson (playlistToJson p) = Except.ok p := by
  obtain ⟨items, name⟩ := p
  cases name with
  | none =>
    have h0 : playlistFromJson (playlistToJson { items := items, name := none }) =
        match parseItems (items.map playlistItemToJson) with
        | Except.error e => Except.error e
        | Except.ok l => Except.ok { items := l, name := none } := rfl
    rw [h0, parseItems_map_toJson]
  | some s =>
    have h0 : playlistFromJson (playlistToJson { items := items, name := some s }) =
        match parseItems (items.map playlistItemToJson) with
        | Except.error e => Except.error e
        | Except.ok l => Except.ok { items := l, name := some s } := rfl
    rw [h0, parseItems_map_toJson]

/-! ### C8 — the snapshot builder preserves count, order and duplicates -/

/-- C8 (amended): for every yielded sequence all of whose pairs carry
both fields, the snapshot builder succeeds and wraps each pair into a
`PlaylistItem` in yield order — item count equals the yielded count,
order is preserved, and duplicates are kept, as the result is exactly
the element-wise image of the input.  (A sequence containing a missing
field aborts the run instead — see C3.) -/
theorem snapshot_builder_preserves (pairs : List (String × String)) :
    buildSnapshot (pairs.map (fun q => (some q.1, some q.2)))
      = Except.ok (pairs.map (fun q => { video := q.1, title := q.2 }))
    ∧ (pairs.map (fun q => ({ video := q.1, title := q.2 } : PlaylistItem))).length
        = pairs.length := by
  refine ⟨?_, List.length_map _ _⟩
  induction pairs with
  | nil => rfl
  | cons q rest ih =>
    have hstep : buildSnapshot ((q :: rest).map (fun q => (some q.1, some q.2))) =
        match buildSnapshot (rest.map fun q => (some q.1, some q.2)) with
        | Except.error e => Except.error e
        | Except.ok items => Except.ok ({ video := q.1, title := q.2 } :: items) := rfl
    rw [hstep, ih]
    rfl

/-- C8 counterexample to the claim as stated: a yielded sequence of one
pair that lacks its video id produces no snapshot at all — the builder
raises a `ValidationError` — so no snapshot whose item count equals the
yielded count exists for it. -/
theorem snapshot_builder_claim_counterexample :
    buildSnapshot [(none, some "T")]
      = Except.error "validation error for PlaylistItem: video: none is not an allowed type" :=
  rfl

/-- C7 witness: the round trip evaluated on a concrete one-item
playlist. -/
theorem snapshot_roundtrip_witness :
    playlistFromJson (playlistToJson
        { items := [{ video := "v1", title := "Song A" }], name := none })
      = Except.ok { items := [{ video := "v1", title := "Song A" }], name := none } :=
  snapshot_roundtrip { items := [{ video := "v1", title := "Song A" }], name := none }

/-- C8 witness: a yielded sequence with a duplicated pair is wrapped
into two identical items — duplicates are kept. -/
theorem snapshot_builder_preserves_witness :
    buildSnapshot [(some "v", some "T"), (some "v", some "T")]
      = Except.ok [{ video := "v", title := "T" }, { video := "v", title := "T" }] :=
  (snapshot_builder_preserves [("v", "T"), ("v", "T")]).1
